import Mathlib

/-!
Verification of the token-lifecycle-aware Microsoft Graph HTTP client.

The development shallowly embeds the Go source:

* `internal/token/token.go` — the token inspector (`ParseToken` and the
  `TokenInfo` record).  The JWT library call `parser.ParseUnverified` is the
  library boundary: it is modelled by a `decoded : Except Unit Claims`
  parameter standing for the outcome of decoding the token string.  Time is
  measured in integer nanoseconds (Go `time.Duration` granularity); an `exp`
  claim holds whole seconds, as produced by Go's `int64(v)` conversion.
* `internal/graph/client.go` — the request executor (`Client`), the
  refresh-aware client (`ClientWithRefresh`) and the credential refresher
  (`refreshToken`).  Network I/O is modelled by oracle functions
  (`RefreshCall → HttpAnswer`, `GraphRequest → HttpAnswer`); each operation
  additionally returns the list of network calls it issued, so that claims
  about "no network call" or "exactly one retry" are statable.
* JSON (un)marshalling is a second library boundary: a response body carries
  the outcomes of the possible `json.Unmarshal` calls the Go code can make on
  it.  Two facts of `encoding/json` are baked in where the Go code relies on
  them: `json.Unmarshal` always fails on a nil target
  (`InvalidUnmarshalError`) and always fails on empty input
  (`unexpected end of JSON input`).
-/

set_option autoImplicit false

namespace MsGraph

/-- Nanoseconds per second; Go durations are integer nanosecond counts. -/
def nsPerSec : Int := 1000000000

/-- Go `10 * time.Minute` in nanoseconds. -/
def tenMinutes : Int := 600 * nsPerSec

/-- Value of a single JWT claim as seen through Go's dynamic typing.  A JSON
number decoded by `encoding/json` arrives as `float64`; the source also
accepts `int64`.  `numFloat s` records the already-truncated `int64(v)` of a
`float64` claim, `numInt s` an `int64` claim, and `nonNumeric` any value the
source's type switch rejects. -/
inductive ClaimVal where
  | numFloat (sec : Int)
  | numInt (sec : Int)
  | nonNumeric
deriving Repr, DecidableEq

/-- Claim mapping of a decoded JWT payload (JSON object keys are unique, so
an association list is a faithful model of the Go map). -/
abbrev Claims := List (String × ClaimVal)

/-- Lookup of a key in the claims map (Go `claims["exp"]`). -/
def getClaim (cs : Claims) (key : String) : Option ClaimVal :=
  match cs with
  | [] => none
  | (k, v) :: rest => if k = key then some v else getClaim rest key

/-- Expiry snapshot computed by `ParseToken` (Go `token.TokenInfo`).  All
times are in nanoseconds since the epoch. -/
structure TokenInfo where
  expiresAt : Int
  isExpired : Bool
  timeUntilExp : Int
  expiresSoon : Bool
deriving Repr, DecidableEq

/-- Error kinds of the token inspector, mirroring the three distinct error
returns of Go `ParseToken`.  `decodeError` covers the library-boundary
failures (wrong segment count, invalid encoding, invalid claims structure);
the `token.Claims.(jwt.MapClaims)` assertion in the source cannot fail when
`ParseUnverified` is given `jwt.MapClaims`, so it is folded into the same
decode stage. -/
inductive ParseErr where
  | decodeError
  | missingClaim
  | invalidClaimType
deriving Repr, DecidableEq

/-- Go `token.ParseToken`, as a function of the decode outcome of the token
string and the current time `now` (nanoseconds).  Mirrors lines 19-59 of
`internal/token/token.go`: extract `exp`, accept `float64`/`int64`, then
`isExpired := now.After(expTime)` and
`expiresSoon := !isExpired && timeUntilExp < 10*time.Minute`. -/
def ParseToken (decoded : Except Unit Claims) (now : Int) :
    Except ParseErr TokenInfo :=
  match decoded with
  | Except.error _ => Except.error ParseErr.decodeError
  | Except.ok cs =>
    match getClaim cs "exp" with
    | none => Except.error ParseErr.missingClaim
    | some v =>
      let mk : Int → Except ParseErr TokenInfo := fun s =>
        let expTime := s * nsPerSec
        let timeUntil := expTime - now
        let isExp : Bool := decide (expTime < now)
        Except.ok
          { expiresAt := expTime
            isExpired := isExp
            timeUntilExp := timeUntil
            expiresSoon := !isExp && decide (timeUntil < tenMinutes) }
      match v with
      | ClaimVal.numFloat s => mk s
      | ClaimVal.numInt s => mk s
      | ClaimVal.nonNumeric => Except.error ParseErr.invalidClaimType

/-- Go `graph.TokenResponse` (types.go lines 30-36).  A JSON body lacking the
`access_token` field unmarshals to the zero value, i.e. `accessToken = ""`. -/
structure TokenResponse where
  accessToken : String
  tokenType : String
  expiresIn : Int
  refreshToken : String
  scope : String
deriving Repr, DecidableEq

/-- One form-encoded POST to the token issuer, as built by Go `refreshToken`
(method POST and the `application/x-www-form-urlencoded` content type are
implicit in the record). -/
structure RefreshCall where
  url : String
  formData : List (String × String)
deriving Repr, DecidableEq

/-- An HTTP response body together with the outcomes of the `json.Unmarshal`
calls the Go code may attempt on it: into `ErrorResponse` (`asError`, with
the code and message), into `TokenResponse` (`asToken`), and into the
caller-supplied non-nil result target (`decodesAsResult`). -/
structure HttpBody where
  raw : String
  asError : Option (String × String)
  asToken : Option TokenResponse
  decodesAsResult : Bool
deriving Repr, DecidableEq

/-- Outcome of one network round trip.  `transportErr` covers a failed
`httpClient.Do` as well as a failed `io.ReadAll` of the response body. -/
inductive HttpAnswer where
  | transportErr
  | response (status : Int) (body : HttpBody)
deriving Repr, DecidableEq

/-- Error kinds of Go `refreshToken` (client.go lines 575-632), one per
distinct error return. -/
inductive RefreshErr where
  | invalidInput
  | transportErr
  | remoteErr (code message : String)
  | rawStatusErr (status : Int) (raw : String)
  | malformedResponse
  | missingAccessToken
deriving Repr, DecidableEq

/-- Fixed scope sent on every refresh (client.go line 591). -/
def defaultScope : String := "https://graph.microsoft.com/.default"

/-- Token-issuing endpoint for a tenant; Go defaults the tenant to "common"
when empty (client.go lines 581-585). -/
def tokenEndpoint (tenantID : String) : String :=
  "https://login.microsoftonline.com/"
    ++ (if tenantID = "" then "common" else tenantID) ++ "/oauth2/v2.0/token"

/-- The single refresh call Go `refreshToken` issues: `url.Values.Encode`
emits keys in sorted order, which for these three keys is
grant_type, refresh_token, scope. -/
def refreshCallOf (rt tenantID : String) : RefreshCall :=
  { url := tokenEndpoint tenantID
    formData := [("grant_type", "refresh_token"), ("refresh_token", rt),
                 ("scope", defaultScope)] }

/-- Go `refreshToken` (client.go lines 575-632).  Returns the list of network
calls issued together with the result.  An empty refresh token fails before
any call; a non-2xx status yields the structured remote error when the body
parses as `ErrorResponse` and a raw-status error otherwise; a 2xx body that
does not unmarshal is malformed, and one whose `access_token` is empty is
rejected. -/
def refreshToken (rt tenantID : String) (net : RefreshCall → HttpAnswer) :
    List RefreshCall × Except RefreshErr TokenResponse :=
  if rt = "" then ([], Except.error RefreshErr.invalidInput)
  else
    let call := refreshCallOf rt tenantID
    match net call with
    | HttpAnswer.transportErr => ([call], Except.error RefreshErr.transportErr)
    | HttpAnswer.response status body =>
      if status < 200 ∨ 300 ≤ status then
        match body.asError with
        | some (code, msg) =>
          ([call], Except.error (RefreshErr.remoteErr code msg))
        | none => ([call], Except.error (RefreshErr.rawStatusErr status body.raw))
      else
        match body.asToken with
        | none => ([call], Except.error RefreshErr.malformedResponse)
        | some tr =>
          if tr.accessToken = "" then
            ([call], Except.error RefreshErr.missingAccessToken)
          else ([call], Except.ok tr)

/-- One request against the Graph API, as built by the executor: the bearer
token attached in the Authorization header, and the JSON request body (empty
string for bodyless requests). -/
structure GraphRequest where
  method : String
  url : String
  bearer : String
  body : String
deriving Repr, DecidableEq

/-- Error kinds of `ClientWithRefresh.checkAndRefreshToken`, one per distinct
error return (client.go lines 60-103). -/
inductive CheckErr where
  | parseFailedNoRefresh (e : ParseErr)
  | expiredNoRefresh
  | refreshFailed (e : RefreshErr)
deriving Repr, DecidableEq

/-- Error kinds of the request executor and refresh-aware client operations,
one per distinct error return; the `retry` variants arise inside
`refreshTokenOn401`. -/
inductive GraphErr where
  | tokenCheckFailed (e : CheckErr)
  | encodeErr
  | transportErr
  | remoteErr (code message : String)
  | rawStatusErr (status : Int) (raw : String)
  | unmarshalErr
  | noRefreshTokenOn401
  | refreshOn401Failed (e : RefreshErr)
  | retryTransportErr
  | retryRemoteErr (code message : String)
  | retryRawStatusErr (status : Int) (raw : String)
  | retryUnmarshalErr
deriving Repr, DecidableEq

/-- Go `graph.BaseURL` (client.go line 18). -/
def BaseURL : String := "https://graph.microsoft.com/v1.0"

/-- Credential and configuration state of a `ClientWithRefresh` (the embedded
`Client`'s `accessToken`/`baseURL` plus the wrapper's `refreshToken` and
`tenantID`).  The two Go mutexes protect this state; in this sequential
embedding each operation acts on the state atomically. -/
structure ClientState where
  accessToken : String
  baseURL : String
  refreshToken : String
  tenantID : String
deriving Repr, DecidableEq

/-- Go `NewClientWithRefresh` (client.go lines 47-57). -/
def NewClientWithRefresh (accessToken rt tenantID : String) : ClientState :=
  { accessToken := accessToken, baseURL := BaseURL, refreshToken := rt,
    tenantID := tenantID }

/-- Request construction shared by the executor methods: URL is
`baseURL + endpoint`, the current access token goes into the bearer header. -/
def mkGraphRequest (method : String) (c : ClientState) (endpoint body : String) :
    GraphRequest :=
  { method := method, url := c.baseURL ++ endpoint, bearer := c.accessToken,
    body := body }

/-- Outcome of `json.Unmarshal(body, result)` as called unconditionally by
`Client.Get` and `ClientWithRefresh.Get`: it fails when `result` is nil
(`InvalidUnmarshalError`), fails on an empty body (syntax error), and
otherwise succeeds exactly when the body matches the target's shape. -/
def unmarshalOk (resultIsNil : Bool) (body : HttpBody) : Bool :=
  if resultIsNil then false
  else if body.raw = "" then false
  else body.decodesAsResult

/-- Outcome of `json.NewEncoder(&body).Encode(payload)`: a nil payload leaves
the buffer empty; a non-nil payload either encodes to a string or fails. -/
def encodeBody : Option (Except Unit String) → Except Unit String
  | none => Except.ok ""
  | some (Except.error _) => Except.error ()
  | some (Except.ok s) => Except.ok s

/-- The non-2xx error path repeated verbatim in every executor method: try to
unmarshal an `ErrorResponse`, fall back to the raw status and body. -/
def apiError (status : Int) (body : HttpBody) : GraphErr :=
  match body.asError with
  | some (code, msg) => GraphErr.remoteErr code msg
  | none => GraphErr.rawStatusErr status body.raw

/-- The same error path inside `refreshTokenOn401` ("API error after
refresh", client.go lines 153-159). -/
def retryApiError (status : Int) (body : HttpBody) : GraphErr :=
  match body.asError with
  | some (code, msg) => GraphErr.retryRemoteErr code msg
  | none => GraphErr.retryRawStatusErr status body.raw

/-- Go `Client.Get` (client.go lines 171-209).  Note the final
`json.Unmarshal(body, result)` is unconditional — unlike `Post`/`Patch`
there is no `result != nil && len(body) > 0` guard. -/
def ClientGet (accessToken baseURL endpoint : String) (resultIsNil : Bool)
    (net : GraphRequest → HttpAnswer) : List GraphRequest × Option GraphErr :=
  let req : GraphRequest :=
    { method := "GET", url := baseURL ++ endpoint, bearer := accessToken,
      body := "" }
  match net req with
  | HttpAnswer.transportErr => ([req], some GraphErr.transportErr)
  | HttpAnswer.response status body =>
    if status < 200 ∨ 300 ≤ status then ([req], some (apiError status body))
    else if unmarshalOk resultIsNil body then ([req], none)
    else ([req], some GraphErr.unmarshalErr)

/-- Go `Client.Post` and `Client.Patch` (client.go lines 264-312 and
381-429), which are textually identical up to the method string.  On 2xx the
body is decoded only under the guard `result != nil && len(respBody) > 0`. -/
def clientSendPayload (method accessToken baseURL endpoint : String)
    (payload : Option (Except Unit String)) (resultIsNil : Bool)
    (net : GraphRequest → HttpAnswer) : List GraphRequest × Option GraphErr :=
  match encodeBody payload with
  | Except.error _ => ([], some GraphErr.encodeErr)
  | Except.ok pb =>
    let req : GraphRequest :=
      { method := method, url := baseURL ++ endpoint, bearer := accessToken,
        body := pb }
    match net req with
    | HttpAnswer.transportErr => ([req], some GraphErr.transportErr)
    | HttpAnswer.response status body =>
      if status < 200 ∨ 300 ≤ status then ([req], some (apiError status body))
      else if resultIsNil ∨ body.raw = "" then ([req], none)
      else if body.decodesAsResult then ([req], none)
      else ([req], some GraphErr.unmarshalErr)

/-- Go `Client.Post`. -/
def ClientPost := clientSendPayload "POST"

/-- Go `Client.Patch`. -/
def ClientPatch := clientSendPayload "PATCH"

/-- The token-update step shared by `checkAndRefreshToken` and
`refreshTokenOn401` (client.go lines 92-100 and 120-128): always replace the
access token; replace the refresh token only when the response carries a
non-empty one. -/
def applyTokenResponse (c : ClientState) (tr : TokenResponse) : ClientState :=
  { c with
    accessToken := tr.accessToken
    refreshToken := if tr.refreshToken = "" then c.refreshToken
                    else tr.refreshToken }

/-- The refresh attempt both fall-through paths of `checkAndRefreshToken`
reach at client.go line 86. -/
def doProactiveRefresh (c : ClientState)
    (refreshNet : RefreshCall → HttpAnswer) :
    ClientState × List RefreshCall × Option CheckErr :=
  match refreshToken c.refreshToken c.tenantID refreshNet with
  | (calls, Except.error e) => (c, calls, some (CheckErr.refreshFailed e))
  | (calls, Except.ok tr) => (applyTokenResponse c tr, calls, none)

/-- Go `ClientWithRefresh.checkAndRefreshToken` (client.go lines 60-103) as a
state transformer; the returned list records the refresh calls issued. -/
def checkAndRefreshToken (c : ClientState) (decoded : Except Unit Claims)
    (now : Int) (refreshNet : RefreshCall → HttpAnswer) :
    ClientState × List RefreshCall × Option CheckErr :=
  match ParseToken decoded now with
  | Except.error e =>
    if c.refreshToken = "" then
      (c, [], some (CheckErr.parseFailedNoRefresh e))
    else doProactiveRefresh c refreshNet
  | Except.ok info =>
    if !info.isExpired && !info.expiresSoon then (c, [], none)
    else if c.refreshToken = "" then
      if info.isExpired then (c, [], some CheckErr.expiredNoRefresh)
      else (c, [], none)
    else doProactiveRefresh c refreshNet

/-- Go `ClientWithRefresh.refreshTokenOn401` (client.go lines 106-168):
refresh once, then retry the original request exactly once with the updated
access token; the retry decodes under the `result != nil && len > 0`
guard. -/
def refreshTokenOn401 (c : ClientState) (endpoint method retryBody : String)
    (resultIsNil : Bool) (refreshNet : RefreshCall → HttpAnswer)
    (net : GraphRequest → HttpAnswer) :
    ClientState × List RefreshCall × List GraphRequest × Option GraphErr :=
  if c.refreshToken = "" then (c, [], [], some GraphErr.noRefreshTokenOn401)
  else
    match refreshToken c.refreshToken c.tenantID refreshNet with
    | (calls, Except.error e) =>
      (c, calls, [], some (GraphErr.refreshOn401Failed e))
    | (calls, Except.ok tr) =>
      let c2 := applyTokenResponse c tr
      let req := mkGraphRequest method c2 endpoint retryBody
      match net req with
      | HttpAnswer.transportErr =>
        (c2, calls, [req], some GraphErr.retryTransportErr)
      | HttpAnswer.response status body =>
        if status < 200 ∨ 300 ≤ status then
          (c2, calls, [req], some (retryApiError status body))
        else if resultIsNil ∨ body.raw = "" then (c2, calls, [req], none)
        else if body.decodesAsResult then (c2, calls, [req], none)
        else (c2, calls, [req], some GraphErr.retryUnmarshalErr)

/-- Go `ClientWithRefresh.Get` (client.go lines 212-261): pre-flight check,
one request, 401 handled by `refreshTokenOn401` (checked before the generic
non-2xx branch), and an unconditional `json.Unmarshal(body, result)` on
2xx.  Returns final state, refresh calls, Graph requests issued, error. -/
def ClientWithRefreshGet (c : ClientState) (endpoint : String)
    (resultIsNil : Bool) (decoded : Except Unit Claims) (now : Int)
    (refreshNet : RefreshCall → HttpAnswer) (net : GraphRequest → HttpAnswer) :
    ClientState × List RefreshCall × List GraphRequest × Option GraphErr :=
  match checkAndRefreshToken c decoded now refreshNet with
  | (c1, rc, some e) => (c1, rc, [], some (GraphErr.tokenCheckFailed e))
  | (c1, rc, none) =>
    let req := mkGraphRequest "GET" c1 endpoint ""
    match net req with
    | HttpAnswer.transportErr => (c1, rc, [req], some GraphErr.transportErr)
    | HttpAnswer.response status body =>
      if status = 401 then
        let r := refreshTokenOn401 c1 endpoint "GET" "" resultIsNil
          refreshNet net
        (r.1, rc ++ r.2.1, req :: r.2.2.1, r.2.2.2)
      else if status < 200 ∨ 300 ≤ status then
        (c1, rc, [req], some (apiError status body))
      else if unmarshalOk resultIsNil body then (c1, rc, [req], none)
      else (c1, rc, [req], some GraphErr.unmarshalErr)

/-- Go `ClientWithRefresh.Post` and `ClientWithRefresh.Patch` (client.go
lines 315-378 and 432-495), textually identical up to the method string.  On
401 the payload is re-encoded for the retry (any second encode error is
ignored by the source; encoding is deterministic, so the retry body equals
the first body). -/
def clientWithRefreshSendPayload (method : String) (c : ClientState)
    (endpoint : String) (payload : Option (Except Unit String))
    (resultIsNil : Bool) (decoded : Except Unit Claims) (now : Int)
    (refreshNet : RefreshCall → HttpAnswer) (net : GraphRequest → HttpAnswer) :
    ClientState × List RefreshCall × List GraphRequest × Option GraphErr :=
  match checkAndRefreshToken c decoded now refreshNet with
  | (c1, rc, some e) => (c1, rc, [], some (GraphErr.tokenCheckFailed e))
  | (c1, rc, none) =>
    match encodeBody payload with
    | Except.error _ => (c1, rc, [], some GraphErr.encodeErr)
    | Except.ok pb =>
      let req := mkGraphRequest method c1 endpoint pb
      match net req with
      | HttpAnswer.transportErr => (c1, rc, [req], some GraphErr.transportErr)
      | HttpAnswer.response status body =>
        if status = 401 then
          let r := refreshTokenOn401 c1 endpoint method pb resultIsNil
            refreshNet net
          (r.1, rc ++ r.2.1, req :: r.2.2.1, r.2.2.2)
        else if status < 200 ∨ 300 ≤ status then
          (c1, rc, [req], some (apiError status body))
        else if resultIsNil ∨ body.raw = "" then (c1, rc, [req], none)
        else if body.decodesAsResult then (c1, rc, [req], none)
        else (c1, rc, [req], some GraphErr.unmarshalErr)

/-- Go `ClientWithRefresh.Post`. -/
def ClientWithRefreshPost := clientWithRefreshSendPayload "POST"

/-- Go `ClientWithRefresh.Patch`. -/
def ClientWithRefreshPatch := clientWithRefreshSendPayload "PATCH"

/-- Go `ClientWithRefresh.Delete` (client.go lines 531-572): no payload, no
result target (the 401 handler is invoked with `result = nil`), no body
decode on 2xx. -/
def ClientWithRefreshDelete (c : ClientState) (endpoint : String)
    (decoded : Except Unit Claims) (now : Int)
    (refreshNet : RefreshCall → HttpAnswer) (net : GraphRequest → HttpAnswer) :
    ClientState × List RefreshCall × List GraphRequest × Option GraphErr :=
  match checkAndRefreshToken c decoded now refreshNet with
  | (c1, rc, some e) => (c1, rc, [], some (GraphErr.tokenCheckFailed e))
  | (c1, rc, none) =>
    let req := mkGraphRequest "DELETE" c1 endpoint ""
    match net req with
    | HttpAnswer.transportErr => (c1, rc, [req], some GraphErr.transportErr)
    | HttpAnswer.response status body =>
      if status = 401 then
        let r := refreshTokenOn401 c1 endpoint "DELETE" "" true refreshNet net
        (r.1, rc ++ r.2.1, req :: r.2.2.1, r.2.2.2)
      else if status < 200 ∨ 300 ≤ status then
        (c1, rc, [req], some (apiError status body))
      else (c1, rc, [req], none)

/-! Theorems settling the claims, preceded by shared helper lemmas. -/

/-- With a non-empty refresh token, the refresher issues exactly one call,
whatever the network answers. -/
theorem refreshToken_calls (rt tid : String) (h : ¬ rt = "")
    (net : RefreshCall → HttpAnswer) :
    (refreshToken rt tid net).1 = [refreshCallOf rt tid] := by
  simp only [refreshToken, if_neg h]
  rcases net (refreshCallOf rt tid) with _ | ⟨status, body⟩
  · rfl
  · dsimp only
    split
    · rcases hE : body.asError with _ | ⟨code, msg⟩ <;> simp [hE]
    · rcases hT : body.asToken with _ | tr
      · simp [hT]
      · simp only [hT]
        split <;> rfl

/-- With an empty refresh token, the 401 handler fails at once: no refresh
call, no retry. -/
theorem refreshTokenOn401_noToken (c : ClientState)
    (endpoint method rb : String) (rin : Bool)
    (refreshNet : RefreshCall → HttpAnswer) (net : GraphRequest → HttpAnswer)
    (h : c.refreshToken = "") :
    refreshTokenOn401 c endpoint method rb rin refreshNet net =
      (c, [], [], some GraphErr.noRefreshTokenOn401) := by
  simp [refreshTokenOn401, h]

/-- When the refresh inside the 401 handler succeeds, the handler ends in the
updated state, has issued exactly the refresher's calls, and has retried
exactly once — whatever the retry's outcome. -/
theorem refreshTokenOn401_components (c : ClientState)
    (endpoint method rb : String) (rin : Bool)
    (refreshNet : RefreshCall → HttpAnswer) (net : GraphRequest → HttpAnswer)
    (rcalls : List RefreshCall) (tr : TokenResponse)
    (hrt : ¬ c.refreshToken = "")
    (href : refreshToken c.refreshToken c.tenantID refreshNet =
      (rcalls, Except.ok tr)) :
    (refreshTokenOn401 c endpoint method rb rin refreshNet net).1 =
      applyTokenResponse c tr
    ∧ (refreshTokenOn401 c endpoint method rb rin refreshNet net).2.1 = rcalls
    ∧ (refreshTokenOn401 c endpoint method rb rin refreshNet net).2.2.1 =
      [mkGraphRequest method (applyTokenResponse c tr) endpoint rb] := by
  simp only [refreshTokenOn401, if_neg hrt, href]
  rcases net (mkGraphRequest method (applyTokenResponse c tr) endpoint rb)
    with _ | ⟨status, body⟩
  · exact ⟨rfl, rfl, rfl⟩
  · dsimp only
    split
    · exact ⟨rfl, rfl, rfl⟩
    · split
      · exact ⟨rfl, rfl, rfl⟩
      · split <;> exact ⟨rfl, rfl, rfl⟩

/-- When the refresh inside the 401 handler succeeds but the retry comes back
401 again, the handler returns the terminal retry error (401 is handled by
the generic non-2xx branch on the retry: there is no third attempt). -/
theorem refreshTokenOn401_retry401 (c : ClientState)
    (endpoint method rb : String) (rin : Bool)
    (refreshNet : RefreshCall → HttpAnswer) (net : GraphRequest → HttpAnswer)
    (rcalls : List RefreshCall) (tr : TokenResponse) (b2 : HttpBody)
    (hrt : ¬ c.refreshToken = "")
    (href : refreshToken c.refreshToken c.tenantID refreshNet =
      (rcalls, Except.ok tr))
    (hretry : net (mkGraphRequest method (applyTokenResponse c tr) endpoint rb)
      = HttpAnswer.response 401 b2) :
    refreshTokenOn401 c endpoint method rb rin refreshNet net =
      (applyTokenResponse c tr, rcalls,
       [mkGraphRequest method (applyTokenResponse c tr) endpoint rb],
       some (retryApiError 401 b2)) := by
  simp only [refreshTokenOn401, if_neg hrt, href, hretry]
  rw [if_pos (by omega)]

/-- A pre-flight check that succeeds and a primary response of 401 hand the
call over to the 401 handler, with the primary request recorded first. -/
theorem clientWithRefreshGet_401 (c : ClientState) (endpoint : String)
    (resultIsNil : Bool) (decoded : Except Unit Claims) (now : Int)
    (refreshNet : RefreshCall → HttpAnswer) (net : GraphRequest → HttpAnswer)
    (c1 : ClientState) (rc0 : List RefreshCall) (b1 : HttpBody)
    (hcheck : checkAndRefreshToken c decoded now refreshNet = (c1, rc0, none))
    (hprimary : net (mkGraphRequest "GET" c1 endpoint "") =
      HttpAnswer.response 401 b1) :
    ClientWithRefreshGet c endpoint resultIsNil decoded now refreshNet net =
      ((refreshTokenOn401 c1 endpoint "GET" "" resultIsNil refreshNet net).1,
       rc0 ++ (refreshTokenOn401 c1 endpoint "GET" "" resultIsNil
         refreshNet net).2.1,
       mkGraphRequest "GET" c1 endpoint "" ::
         (refreshTokenOn401 c1 endpoint "GET" "" resultIsNil
           refreshNet net).2.2.1,
       (refreshTokenOn401 c1 endpoint "GET" "" resultIsNil
         refreshNet net).2.2.2) := by
  simp only [ClientWithRefreshGet, hcheck, hprimary]
  rfl

/-- The POST/PATCH analogue of `clientWithRefreshGet_401`: a successful
pre-flight check, a successfully encoded payload and a primary 401 hand the
call over to the 401 handler with the re-encoded payload as retry body. -/
theorem clientWithRefreshSendPayload_401 (method : String) (c : ClientState)
    (endpoint : String) (payload : Option (Except Unit String)) (pb : String)
    (resultIsNil : Bool) (decoded : Except Unit Claims) (now : Int)
    (refreshNet : RefreshCall → HttpAnswer) (net : GraphRequest → HttpAnswer)
    (c1 : ClientState) (rc0 : List RefreshCall) (b1 : HttpBody)
    (hcheck : checkAndRefreshToken c decoded now refreshNet = (c1, rc0, none))
    (henc : encodeBody payload = Except.ok pb)
    (hprimary : net (mkGraphRequest method c1 endpoint pb) =
      HttpAnswer.response 401 b1) :
    clientWithRefreshSendPayload method c endpoint payload resultIsNil decoded
      now refreshNet net =
      ((refreshTokenOn401 c1 endpoint method pb resultIsNil refreshNet net).1,
       rc0 ++ (refreshTokenOn401 c1 endpoint method pb resultIsNil
         refreshNet net).2.1,
       mkGraphRequest method c1 endpoint pb ::
         (refreshTokenOn401 c1 endpoint method pb resultIsNil
           refreshNet net).2.2.1,
       (refreshTokenOn401 c1 endpoint method pb resultIsNil
         refreshNet net).2.2.2) := by
  simp only [clientWithRefreshSendPayload, hcheck, henc, hprimary]
  rfl

/-- The DELETE analogue of `clientWithRefreshGet_401`: the 401 handler is
invoked with a nil result target and no retry body. -/
theorem clientWithRefreshDelete_401 (c : ClientState) (endpoint : String)
    (decoded : Except Unit Claims) (now : Int)
    (refreshNet : RefreshCall → HttpAnswer) (net : GraphRequest → HttpAnswer)
    (c1 : ClientState) (rc0 : List RefreshCall) (b1 : HttpBody)
    (hcheck : checkAndRefreshToken c decoded now refreshNet = (c1, rc0, none))
    (hprimary : net (mkGraphRequest "DELETE" c1 endpoint "") =
      HttpAnswer.response 401 b1) :
    ClientWithRefreshDelete c endpoint decoded now refreshNet net =
      ((refreshTokenOn401 c1 endpoint "DELETE" "" true refreshNet net).1,
       rc0 ++ (refreshTokenOn401 c1 endpoint "DELETE" "" true
         refreshNet net).2.1,
       mkGraphRequest "DELETE" c1 endpoint "" ::
         (refreshTokenOn401 c1 endpoint "DELETE" "" true
           refreshNet net).2.2.1,
       (refreshTokenOn401 c1 endpoint "DELETE" "" true
         refreshNet net).2.2.2) := by
  simp only [ClientWithRefreshDelete, hcheck, hprimary]
  rfl

/-- The stale-or-unparseable pre-flight cases with a refresh token reach the
shared refresh attempt; on success the state is updated. -/
theorem checkAndRefreshToken_refreshes (c : ClientState)
    (decoded : Except Unit Claims) (now : Int)
    (refreshNet : RefreshCall → HttpAnswer)
    (hrt : ¬ c.refreshToken = "")
    (hstale : ∀ info, ParseToken decoded now = Except.ok info →
      info.isExpired = true ∨ info.expiresSoon = true) :
    checkAndRefreshToken c decoded now refreshNet =
      doProactiveRefresh c refreshNet := by
  unfold checkAndRefreshToken
  rcases hp : ParseToken decoded now with e | info
  · simp [if_neg hrt]
  · rcases hstale info hp with h | h <;>
      simp [h, if_neg hrt]

/-- C4: for a well-formed token whose numeric `exp` claim lies `X` seconds
after the current time (`X ≥ 1`), inspection reports `is_expired = false` and
`expires_soon` exactly when `X < 600`; for a token whose `exp` lies in the
past, inspection reports `is_expired = true`, `expires_soon = false`, and a
negative `time_until_expiry`. -/
theorem c4_expiry_classification (cs : Claims) (now e X : Int)
    (hv : getClaim cs "exp" = some (ClaimVal.numFloat e) ∨
          getClaim cs "exp" = some (ClaimVal.numInt e))
    (hX : e * nsPerSec - now = X * nsPerSec) :
    (1 ≤ X →
      ParseToken (Except.ok cs) now =
        Except.ok { expiresAt := e * nsPerSec, isExpired := false,
                    timeUntilExp := X * nsPerSec,
                    expiresSoon := decide (X < 600) })
    ∧ (e * nsPerSec < now →
      ParseToken (Except.ok cs) now =
        Except.ok { expiresAt := e * nsPerSec, isExpired := true,
                    timeUntilExp := X * nsPerSec, expiresSoon := false }
      ∧ X * nsPerSec < 0) := by
  have hbase : ParseToken (Except.ok cs) now =
      Except.ok { expiresAt := e * nsPerSec,
                  isExpired := decide (e * nsPerSec < now),
                  timeUntilExp := e * nsPerSec - now,
                  expiresSoon := !decide (e * nsPerSec < now) &&
                    decide (e * nsPerSec - now < tenMinutes) } := by
    rcases hv with h | h <;> simp [ParseToken, h]
  have hns : nsPerSec = 1000000000 := rfl
  have htm : tenMinutes = 600 * 1000000000 := rfl
  constructor
  · intro hpos
    have h1 : decide (e * nsPerSec < now) = false := by
      apply decide_eq_false
      rw [hns] at hX ⊢
      omega
    have h2 : decide (e * nsPerSec - now < tenMinutes) = decide (X < 600) := by
      apply decide_eq_decide.mpr
      rw [hns] at hX ⊢
      rw [htm]
      omega
    rw [hbase, h1, h2, hX]
    simp
  · intro hpast
    have h1 : decide (e * nsPerSec < now) = true := decide_eq_true hpast
    refine ⟨?_, ?_⟩
    · rw [hbase, h1, hX]
      simp
    · rw [hns] at hX hpast ⊢
      omega

/-- Witness for `c4_expiry_classification` at two concrete tokens: one
expiring 100 seconds from now (not expired, expiring soon), one expired five
seconds ago. -/
theorem c4_expiry_classification_witness :
    (ParseToken (Except.ok [("exp", ClaimVal.numFloat 100)]) 0 =
      Except.ok { expiresAt := 100 * nsPerSec, isExpired := false,
                  timeUntilExp := 100 * nsPerSec,
                  expiresSoon := decide ((100 : Int) < 600) })
    ∧ (ParseToken (Except.ok [("exp", ClaimVal.numInt (-5))]) 0 =
        Except.ok { expiresAt := -5 * nsPerSec, isExpired := true,
                    timeUntilExp := -5 * nsPerSec, expiresSoon := false }
      ∧ (-5 : Int) * nsPerSec < 0) := by
  refine ⟨?_, ?_⟩
  · exact (c4_expiry_classification [("exp", ClaimVal.numFloat 100)] 0 100 100
      (Or.inl rfl) (by decide)).1 (by decide)
  · exact (c4_expiry_classification [("exp", ClaimVal.numInt (-5))] 0 (-5) (-5)
      (Or.inr rfl) (by decide)).2 (by decide)

/-- C8: token inspection fails with `decodeError` whenever the JWT decode
stage fails, with `missingClaim` when a well-formed token has no `exp` claim,
with `invalidClaimType` when `exp` is present but not numeric, and succeeds
on every other input (numeric `exp`, in either dynamic representation). -/
theorem c8_inspection_errors (decoded : Except Unit Claims) (now : Int) :
    (∀ u, decoded = Except.error u →
      ParseToken decoded now = Except.error ParseErr.decodeError)
    ∧ (∀ cs, decoded = Except.ok cs → getClaim cs "exp" = none →
      ParseToken decoded now = Except.error ParseErr.missingClaim)
    ∧ (∀ cs, decoded = Except.ok cs →
      getClaim cs "exp" = some ClaimVal.nonNumeric →
      ParseToken decoded now = Except.error ParseErr.invalidClaimType)
    ∧ (∀ cs e, decoded = Except.ok cs →
      (getClaim cs "exp" = some (ClaimVal.numFloat e) ∨
       getClaim cs "exp" = some (ClaimVal.numInt e)) →
      ∃ info, ParseToken decoded now = Except.ok info) := by
  refine ⟨?_, ?_, ?_, ?_⟩
  · rintro u rfl
    rfl
  · rintro cs rfl h
    simp [ParseToken, h]
  · rintro cs rfl h
    simp [ParseToken, h]
  · rintro cs e rfl (h | h) <;>
      exact ⟨{ expiresAt := e * nsPerSec,
               isExpired := decide (e * nsPerSec < now),
               timeUntilExp := e * nsPerSec - now,
               expiresSoon := !decide (e * nsPerSec < now) &&
                 decide (e * nsPerSec - now < tenMinutes) },
             by simp [ParseToken, h]⟩

/-- Witness for `c8_inspection_errors` at four concrete inputs, one per
branch of the error taxonomy. -/
theorem c8_inspection_errors_witness :
    ParseToken (Except.error ()) 0 = Except.error ParseErr.decodeError
    ∧ ParseToken (Except.ok [("iat", ClaimVal.numInt 3)]) 0 =
        Except.error ParseErr.missingClaim
    ∧ ParseToken (Except.ok [("exp", ClaimVal.nonNumeric)]) 0 =
        Except.error ParseErr.invalidClaimType
    ∧ ∃ info, ParseToken (Except.ok [("exp", ClaimVal.numInt 5)]) 0 =
        Except.ok info := by
  refine ⟨?_, ?_, ?_, ?_⟩
  · exact (c8_inspection_errors (Except.error ()) 0).1 () rfl
  · exact (c8_inspection_errors (Except.ok [("iat", ClaimVal.numInt 3)]) 0).2.1
      _ rfl (by decide)
  · exact (c8_inspection_errors (Except.ok [("exp", ClaimVal.nonNumeric)]) 0).2.2.1
      _ rfl (by decide)
  · exact (c8_inspection_errors (Except.ok [("exp", ClaimVal.numInt 5)]) 0).2.2.2
      _ 5 rfl (Or.inr (by decide))

/-- C7: the credential refresher rejects an empty refresh token with an
input error and no network call; otherwise it issues exactly one
form-encoded POST to
https://login.microsoftonline.com/(tenantId)/oauth2/v2.0/token — tenantId
replaced by "common" when the supplied identifier is empty — carrying
grant_type=refresh_token, the refresh token, and the fixed default scope;
and a 2xx response whose decoded body has an empty access_token (which is
what a body lacking the field unmarshals to) is an error. -/
theorem c7_refresher_contract (rt tid : String)
    (net : RefreshCall → HttpAnswer) :
    (rt = "" →
      refreshToken rt tid net = ([], Except.error RefreshErr.invalidInput))
    ∧ (¬ rt = "" →
        (refreshToken rt tid net).1 = [refreshCallOf rt tid]
        ∧ (refreshCallOf rt tid).url =
            "https://login.microsoftonline.com/"
              ++ (if tid = "" then "common" else tid) ++ "/oauth2/v2.0/token"
        ∧ (refreshCallOf rt tid).formData =
            [("grant_type", "refresh_token"), ("refresh_token", rt),
             ("scope", "https://graph.microsoft.com/.default")])
    ∧ (∀ status body tr, ¬ rt = "" →
        net (refreshCallOf rt tid) = HttpAnswer.response status body →
        200 ≤ status → status < 300 →
        body.asToken = some tr → tr.accessToken = "" →
        refreshToken rt tid net =
          ([refreshCallOf rt tid],
           Except.error RefreshErr.missingAccessToken)) := by
  refine ⟨?_, ?_, ?_⟩
  · intro h
    simp [refreshToken, h]
  · intro h
    exact ⟨refreshToken_calls rt tid h net, rfl, rfl⟩
  · intro status body tr h hnet hlo hhi htok hacc
    simp only [refreshToken, if_neg h, hnet]
    rw [if_neg (by omega), htok]
    simp [hacc]

/-- Witness for `c7_refresher_contract`: an empty refresh token is rejected
with no call; a concrete refresh against the default tenant issues one call;
a 200 response whose token body has an empty access_token is rejected. -/
theorem c7_refresher_contract_witness :
    refreshToken "" "t" (fun _ => HttpAnswer.transportErr) =
      ([], Except.error RefreshErr.invalidInput)
    ∧ (refreshToken "r" "" (fun _ => HttpAnswer.response 200
        { raw := "jb", asError := none,
          asToken := some { accessToken := "", tokenType := "", expiresIn := 0,
                            refreshToken := "", scope := "" },
          decodesAsResult := false })).1 = [refreshCallOf "r" ""]
    ∧ refreshToken "r" "" (fun _ => HttpAnswer.response 200
        { raw := "jb", asError := none,
          asToken := some { accessToken := "", tokenType := "", expiresIn := 0,
                            refreshToken := "", scope := "" },
          decodesAsResult := false }) =
        ([refreshCallOf "r" ""], Except.error RefreshErr.missingAccessToken) := by
  refine ⟨?_, ?_, ?_⟩
  · exact (c7_refresher_contract "" "t" _).1 rfl
  · exact ((c7_refresher_contract "r" "" _).2.1 (by decide)).1
  · exact (c7_refresher_contract "r" "" _).2.2 200 _ _ (by decide) rfl
      (by decide) (by decide) rfl rfl

/-- C6: whenever a stale (or unparseable) token and a configured refresh
token lead to a successful proactive refresh, the resulting state carries the
response's access token; its refresh token is the response's refresh_token
exactly when that is non-empty and the original value otherwise; the 401
handler applies the same update; and a subsequent refresh from the updated
state sends the updated refresh token value to the token endpoint. -/
theorem c6_token_rotation (c : ClientState) (decoded : Except Unit Claims)
    (now : Int) (refreshNet : RefreshCall → HttpAnswer)
    (rcalls : List RefreshCall) (tr : TokenResponse)
    (hrt : ¬ c.refreshToken = "")
    (hstale : ∀ info, ParseToken decoded now = Except.ok info →
      info.isExpired = true ∨ info.expiresSoon = true)
    (href : refreshToken c.refreshToken c.tenantID refreshNet =
      (rcalls, Except.ok tr)) :
    checkAndRefreshToken c decoded now refreshNet =
      (applyTokenResponse c tr, rcalls, none)
    ∧ (applyTokenResponse c tr).accessToken = tr.accessToken
    ∧ (¬ tr.refreshToken = "" →
        (applyTokenResponse c tr).refreshToken = tr.refreshToken)
    ∧ (tr.refreshToken = "" →
        (applyTokenResponse c tr).refreshToken = c.refreshToken)
    ∧ (∀ endpoint method rb rin net2,
        (refreshTokenOn401 c endpoint method rb rin refreshNet net2).1 =
          applyTokenResponse c tr)
    ∧ (∀ net2,
        (refreshToken (applyTokenResponse c tr).refreshToken
            (applyTokenResponse c tr).tenantID net2).1 =
          [refreshCallOf (applyTokenResponse c tr).refreshToken c.tenantID]) := by
  have hrt2 : ¬ (applyTokenResponse c tr).refreshToken = "" := by
    simp only [applyTokenResponse]
    split <;> simp_all
  refine ⟨?_, rfl, ?_, ?_, ?_, ?_⟩
  · rw [checkAndRefreshToken_refreshes c decoded now refreshNet hrt hstale]
    simp [doProactiveRefresh, href]
  · intro h
    simp [applyTokenResponse, h]
  · intro h
    simp [applyTokenResponse, h]
  · intro endpoint method rb rin net2
    exact (refreshTokenOn401_components c endpoint method rb rin refreshNet
      net2 rcalls tr hrt href).1
  · intro net2
    exact refreshToken_calls _ _ hrt2 net2

/-- Witness for `c6_token_rotation`: a concrete expired token, a refresh
response rotating the refresh token to "newref": the state afterwards holds
"newacc"/"newref", and the next refresh call carries "newref". -/
theorem c6_token_rotation_witness :
    checkAndRefreshToken
        { accessToken := "old", baseURL := BaseURL, refreshToken := "r0",
          tenantID := "t" }
        (Except.ok [("exp", ClaimVal.numFloat 0)]) 1000000000
        (fun _ => HttpAnswer.response 200
          { raw := "jb", asError := none,
            asToken := some { accessToken := "newacc", tokenType := "",
                              expiresIn := 0, refreshToken := "newref",
                              scope := "" },
            decodesAsResult := false }) =
      (applyTokenResponse
        { accessToken := "old", baseURL := BaseURL, refreshToken := "r0",
          tenantID := "t" }
        { accessToken := "newacc", tokenType := "", expiresIn := 0,
          refreshToken := "newref", scope := "" },
       [refreshCallOf "r0" "t"], none)
    ∧ (applyTokenResponse
        { accessToken := "old", baseURL := BaseURL, refreshToken := "r0",
          tenantID := "t" }
        { accessToken := "newacc", tokenType := "", expiresIn := 0,
          refreshToken := "newref", scope := "" }).accessToken = "newacc"
    ∧ (applyTokenResponse
        { accessToken := "old", baseURL := BaseURL, refreshToken := "r0",
          tenantID := "t" }
        { accessToken := "newacc", tokenType := "", expiresIn := 0,
          refreshToken := "newref", scope := "" }).refreshToken = "newref" := by
  have h := c6_token_rotation
    { accessToken := "old", baseURL := BaseURL, refreshToken := "r0",
      tenantID := "t" }
    (Except.ok [("exp", ClaimVal.numFloat 0)]) 1000000000
    (fun _ => HttpAnswer.response 200
      { raw := "jb", asError := none,
        asToken := some { accessToken := "newacc", tokenType := "",
                          expiresIn := 0, refreshToken := "newref",
                          scope := "" },
        decodesAsResult := false })
    [refreshCallOf "r0" "t"]
    { accessToken := "newacc", tokenType := "", expiresIn := 0,
      refreshToken := "newref", scope := "" }
    (by decide)
    (by
      intro info hinfo
      left
      have : info = { expiresAt := 0, isExpired := true,
                      timeUntilExp := -1000000000, expiresSoon := false } := by
        have hx : ParseToken (Except.ok [("exp", ClaimVal.numFloat 0)])
            1000000000 =
            Except.ok { expiresAt := 0, isExpired := true,
                        timeUntilExp := -1000000000, expiresSoon := false } := by
          rfl
        rw [hx] at hinfo
        exact (Except.ok.inj hinfo).symm
      rw [this])
    rfl
  exact ⟨h.1, h.2.1, h.2.2.1 (by decide)⟩

/-- C5: with an access token that parses as expired and an empty refresh
token, every request operation (GET, POST, PATCH, DELETE) fails immediately:
no refresh call and no HTTP request to the base URL is issued. -/
theorem c5_expired_without_refresh_token (c : ClientState)
    (decoded : Except Unit Claims) (now : Int)
    (refreshNet : RefreshCall → HttpAnswer) (net : GraphRequest → HttpAnswer)
    (info : TokenInfo)
    (hp : ParseToken decoded now = Except.ok info)
    (hexp : info.isExpired = true)
    (hrt : c.refreshToken = "") :
    checkAndRefreshToken c decoded now refreshNet =
      (c, [], some CheckErr.expiredNoRefresh)
    ∧ (∀ endpoint resultIsNil,
        ClientWithRefreshGet c endpoint resultIsNil decoded now refreshNet net
          = (c, [], [],
             some (GraphErr.tokenCheckFailed CheckErr.expiredNoRefresh)))
    ∧ (∀ endpoint payload resultIsNil,
        ClientWithRefreshPost c endpoint payload resultIsNil decoded now
            refreshNet net
          = (c, [], [],
             some (GraphErr.tokenCheckFailed CheckErr.expiredNoRefresh)))
    ∧ (∀ endpoint payload resultIsNil,
        ClientWithRefreshPatch c endpoint payload resultIsNil decoded now
            refreshNet net
          = (c, [], [],
             some (GraphErr.tokenCheckFailed CheckErr.expiredNoRefresh)))
    ∧ (∀ endpoint,
        ClientWithRefreshDelete c endpoint decoded now refreshNet net
          = (c, [], [],
             some (GraphErr.tokenCheckFailed CheckErr.expiredNoRefresh))) := by
  have hcheck : checkAndRefreshToken c decoded now refreshNet =
      (c, [], some CheckErr.expiredNoRefresh) := by
    simp [checkAndRefreshToken, hp, hexp, hrt]
  refine ⟨hcheck, ?_, ?_, ?_, ?_⟩
  · intro endpoint resultIsNil
    simp [ClientWithRefreshGet, hcheck]
  · intro endpoint payload resultIsNil
    simp [ClientWithRefreshPost, clientWithRefreshSendPayload, hcheck]
  · intro endpoint payload resultIsNil
    simp [ClientWithRefreshPatch, clientWithRefreshSendPayload, hcheck]
  · intro endpoint
    simp [ClientWithRefreshDelete, hcheck]

/-- Witness for `c5_expired_without_refresh_token`: a concrete token that
expired one second ago and a client with no refresh token; the GET fails with
the expired-no-refresh error and issues no call of either kind. -/
theorem c5_expired_without_refresh_token_witness :
    checkAndRefreshToken
        { accessToken := "tok", baseURL := BaseURL, refreshToken := "",
          tenantID := "" }
        (Except.ok [("exp", ClaimVal.numFloat 0)]) 1000000000
        (fun _ => HttpAnswer.transportErr) =
      ({ accessToken := "tok", baseURL := BaseURL, refreshToken := "",
         tenantID := "" }, [], some CheckErr.expiredNoRefresh)
    ∧ ClientWithRefreshGet
        { accessToken := "tok", baseURL := BaseURL, refreshToken := "",
          tenantID := "" } "/me" false
        (Except.ok [("exp", ClaimVal.numFloat 0)]) 1000000000
        (fun _ => HttpAnswer.transportErr)
        (fun _ => HttpAnswer.response 200
          { raw := "jb", asError := none, asToken := none,
            decodesAsResult := true }) =
      ({ accessToken := "tok", baseURL := BaseURL, refreshToken := "",
         tenantID := "" }, [], [],
       some (GraphErr.tokenCheckFailed CheckErr.expiredNoRefresh)) := by
  have h := c5_expired_without_refresh_token
    { accessToken := "tok", baseURL := BaseURL, refreshToken := "",
      tenantID := "" }
    (Except.ok [("exp", ClaimVal.numFloat 0)]) 1000000000
    (fun _ => HttpAnswer.transportErr)
    (fun _ => HttpAnswer.response 200
      { raw := "jb", asError := none, asToken := none,
        decodesAsResult := true })
    { expiresAt := 0, isExpired := true, timeUntilExp := -1000000000,
      expiresSoon := false }
    rfl rfl rfl
  exact ⟨h.1, h.2.1 "/me" false⟩

/-- C10: with an empty refresh token and an access token that parses as not
expired (whether or not it is expiring soon), the pre-flight check succeeds
with no refresh attempt and no state change, and the GET proceeds: its first
request goes out carrying the existing access token. -/
theorem c10_fresh_enough_without_refresh_token (c : ClientState)
    (decoded : Except Unit Claims) (now : Int)
    (refreshNet : RefreshCall → HttpAnswer) (info : TokenInfo)
    (hp : ParseToken decoded now = Except.ok info)
    (hexp : info.isExpired = false)
    (hrt : c.refreshToken = "") :
    checkAndRefreshToken c decoded now refreshNet = (c, [], none)
    ∧ (∀ endpoint resultIsNil (net : GraphRequest → HttpAnswer),
        (ClientWithRefreshGet c endpoint resultIsNil decoded now refreshNet
          net).2.2.1.head? = some (mkGraphRequest "GET" c endpoint "")
        ∧ (mkGraphRequest "GET" c endpoint "").bearer = c.accessToken) := by
  have hcheck : checkAndRefreshToken c decoded now refreshNet =
      (c, [], none) := by
    cases hsoon : info.expiresSoon <;>
      simp [checkAndRefreshToken, hp, hexp, hrt, hsoon]
  refine ⟨hcheck, ?_⟩
  intro endpoint resultIsNil net
  refine ⟨?_, rfl⟩
  simp only [ClientWithRefreshGet, hcheck]
  rcases net (mkGraphRequest "GET" c endpoint "") with _ | ⟨status, body⟩
  · rfl
  · dsimp only
    split
    · rfl
    · split
      · rfl
      · split <;> rfl

/-- Witness for `c10_fresh_enough_without_refresh_token`: a token expiring in
60 seconds (expiring soon, not expired) with no refresh token configured; the
pre-flight check succeeds untouched and the GET's first request carries the
old token. -/
theorem c10_fresh_enough_without_refresh_token_witness :
    checkAndRefreshToken
        { accessToken := "tok", baseURL := BaseURL, refreshToken := "",
          tenantID := "" }
        (Except.ok [("exp", ClaimVal.numFloat 60)]) 0
        (fun _ => HttpAnswer.transportErr) =
      ({ accessToken := "tok", baseURL := BaseURL, refreshToken := "",
         tenantID := "" }, [], none)
    ∧ (ClientWithRefreshGet
        { accessToken := "tok", baseURL := BaseURL, refreshToken := "",
          tenantID := "" } "/me" false
        (Except.ok [("exp", ClaimVal.numFloat 60)]) 0
        (fun _ => HttpAnswer.transportErr)
        (fun _ => HttpAnswer.response 200
          { raw := "jb", asError := none, asToken := none,
            decodesAsResult := true })).2.2.1.head? =
      some (mkGraphRequest "GET"
        { accessToken := "tok", baseURL := BaseURL, refreshToken := "",
          tenantID := "" } "/me" "") := by
  have h := c10_fresh_enough_without_refresh_token
    { accessToken := "tok", baseURL := BaseURL, refreshToken := "",
      tenantID := "" }
    (Except.ok [("exp", ClaimVal.numFloat 60)]) 0
    (fun _ => HttpAnswer.transportErr)
    { expiresAt := 60 * 1000000000, isExpired := false,
      timeUntilExp := 60 * 1000000000, expiresSoon := true }
    rfl rfl rfl
  exact ⟨h.1, (h.2 "/me" false _).1⟩

/-- C1 counterexample: a token expiring in 60 seconds (expiring soon, not
yet expired), a configured refresh token, and a failing proactive refresh.
The claim says the client proceeds to execute the request with the old
token and does not surface the refresh failure; the code issues no Graph
request at all and returns the refresh failure as an error. -/
theorem c1_counterexample :
    ClientWithRefreshGet
        { accessToken := "tok", baseURL := BaseURL, refreshToken := "rtok",
          tenantID := "" } "/me" false
        (Except.ok [("exp", ClaimVal.numFloat 60)]) 0
        (fun _ => HttpAnswer.transportErr)
        (fun _ => HttpAnswer.response 200
          { raw := "jb", asError := none, asToken := none,
            decodesAsResult := true }) =
      ({ accessToken := "tok", baseURL := BaseURL, refreshToken := "rtok",
         tenantID := "" }, [refreshCallOf "rtok" ""], [],
       some (GraphErr.tokenCheckFailed
         (CheckErr.refreshFailed RefreshErr.transportErr))) := by
  rfl

/-- C1 amended: with an access token that parses as expired OR merely
expiring soon and a non-empty refresh token, a failing proactive refresh is
always surfaced as a refresh-failure error and the request is never
executed, for every outbound operation (GET, POST, PATCH, DELETE) — the
expiring-soon case is not treated more leniently than the expired case. -/
theorem c1_amended_refresh_failure_fatal (c : ClientState)
    (decoded : Except Unit Claims) (now : Int)
    (refreshNet : RefreshCall → HttpAnswer) (net : GraphRequest → HttpAnswer)
    (info : TokenInfo) (calls : List RefreshCall) (e : RefreshErr)
    (hp : ParseToken decoded now = Except.ok info)
    (hstale : info.isExpired = true ∨ info.expiresSoon = true)
    (hrt : ¬ c.refreshToken = "")
    (href : refreshToken c.refreshToken c.tenantID refreshNet =
      (calls, Except.error e)) :
    checkAndRefreshToken c decoded now refreshNet =
      (c, calls, some (CheckErr.refreshFailed e))
    ∧ (∀ endpoint resultIsNil,
        ClientWithRefreshGet c endpoint resultIsNil decoded now refreshNet net
          = (c, calls, [],
             some (GraphErr.tokenCheckFailed (CheckErr.refreshFailed e))))
    ∧ (∀ endpoint payload resultIsNil,
        ClientWithRefreshPost c endpoint payload resultIsNil decoded now
            refreshNet net
          = (c, calls, [],
             some (GraphErr.tokenCheckFailed (CheckErr.refreshFailed e))))
    ∧ (∀ endpoint payload resultIsNil,
        ClientWithRefreshPatch c endpoint payload resultIsNil decoded now
            refreshNet net
          = (c, calls, [],
             some (GraphErr.tokenCheckFailed (CheckErr.refreshFailed e))))
    ∧ (∀ endpoint,
        ClientWithRefreshDelete c endpoint decoded now refreshNet net
          = (c, calls, [],
             some (GraphErr.tokenCheckFailed (CheckErr.refreshFailed e)))) := by
  have hcheck : checkAndRefreshToken c decoded now refreshNet =
      (c, calls, some (CheckErr.refreshFailed e)) := by
    rw [checkAndRefreshToken_refreshes c decoded now refreshNet hrt
      (fun i hi => by
        rw [hp] at hi
        exact (Except.ok.inj hi) ▸ hstale)]
    simp [doProactiveRefresh, href]
  refine ⟨hcheck, ?_, ?_, ?_, ?_⟩
  · intro endpoint resultIsNil
    simp [ClientWithRefreshGet, hcheck]
  · intro endpoint payload resultIsNil
    simp [ClientWithRefreshPost, clientWithRefreshSendPayload, hcheck]
  · intro endpoint payload resultIsNil
    simp [ClientWithRefreshPatch, clientWithRefreshSendPayload, hcheck]
  · intro endpoint
    simp [ClientWithRefreshDelete, hcheck]

/-- Witness for `c1_amended_refresh_failure_fatal`: an expired token, a
refresh token, and a refresh endpoint answering 400 with a structured
error; both the GET and the DELETE fail without issuing any Graph
request. -/
theorem c1_amended_refresh_failure_fatal_witness :
    ClientWithRefreshGet
        { accessToken := "tok", baseURL := BaseURL, refreshToken := "rt0",
          tenantID := "t" } "/me" false
        (Except.ok [("exp", ClaimVal.numFloat 0)]) 1000000000
        (fun _ => HttpAnswer.response 400
          { raw := "err", asError := some ("invalid_grant", "bad"),
            asToken := none, decodesAsResult := false })
        (fun _ => HttpAnswer.transportErr) =
      ({ accessToken := "tok", baseURL := BaseURL, refreshToken := "rt0",
         tenantID := "t" }, [refreshCallOf "rt0" "t"], [],
       some (GraphErr.tokenCheckFailed (CheckErr.refreshFailed
         (RefreshErr.remoteErr "invalid_grant" "bad"))))
    ∧ ClientWithRefreshDelete
        { accessToken := "tok", baseURL := BaseURL, refreshToken := "rt0",
          tenantID := "t" } "/me"
        (Except.ok [("exp", ClaimVal.numFloat 0)]) 1000000000
        (fun _ => HttpAnswer.response 400
          { raw := "err", asError := some ("invalid_grant", "bad"),
            asToken := none, decodesAsResult := false })
        (fun _ => HttpAnswer.transportErr) =
      ({ accessToken := "tok", baseURL := BaseURL, refreshToken := "rt0",
         tenantID := "t" }, [refreshCallOf "rt0" "t"], [],
       some (GraphErr.tokenCheckFailed (CheckErr.refreshFailed
         (RefreshErr.remoteErr "invalid_grant" "bad")))) := by
  have h := c1_amended_refresh_failure_fatal
    { accessToken := "tok", baseURL := BaseURL, refreshToken := "rt0",
      tenantID := "t" }
    (Except.ok [("exp", ClaimVal.numFloat 0)]) 1000000000
    (fun _ => HttpAnswer.response 400
      { raw := "err", asError := some ("invalid_grant", "bad"),
        asToken := none, decodesAsResult := false })
    (fun _ => HttpAnswer.transportErr)
    { expiresAt := 0, isExpired := true, timeUntilExp := -1000000000,
      expiresSoon := false }
    [refreshCallOf "rt0" "t"] (RefreshErr.remoteErr "invalid_grant" "bad")
    rfl (Or.inl rfl) (by decide) rfl
  exact ⟨h.2.1 "/me" false, h.2.2.2.2 "/me"⟩

/-- C2 counterexample: `Client.Get` with a nil result target on a 2xx
response.  The claim says the operation returns success without attempting
to decode; the code calls `json.Unmarshal(body, result)` unconditionally,
which fails on a nil target, so the operation returns an error. -/
theorem c2_counterexample :
    ClientGet "tok" BaseURL "/me" true
        (fun _ => HttpAnswer.response 200
          { raw := "data", asError := none, asToken := none,
            decodesAsResult := true }) =
      ([{ method := "GET", url := BaseURL ++ "/me", bearer := "tok",
          body := "" }], some GraphErr.unmarshalErr) := by
  rfl

/-- C2 amended: on a 2xx response, `Post` and `Patch` decode the body into
the caller's target exactly when a target is supplied and the body is
non-empty, and return success without decoding otherwise; `Get`, by
contrast, always attempts to decode, so on a 2xx it fails whenever the
target is nil or the body is empty, and succeeds exactly when a target is
supplied, the body is non-empty and it decodes. -/
theorem c2_amended_decode_guard (tok base endpoint pb : String)
    (payload : Option (Except Unit String)) (resultIsNil : Bool)
    (net : GraphRequest → HttpAnswer) (status : Int) (body : HttpBody)
    (henc : encodeBody payload = Except.ok pb)
    (hlo : 200 ≤ status) (hhi : status < 300) :
    (net { method := "POST", url := base ++ endpoint, bearer := tok,
           body := pb } = HttpAnswer.response status body →
      ((resultIsNil = true ∨ body.raw = "") →
        ClientPost tok base endpoint payload resultIsNil net =
          ([{ method := "POST", url := base ++ endpoint, bearer := tok,
              body := pb }], none))
      ∧ (resultIsNil = false → ¬ body.raw = "" →
        ClientPost tok base endpoint payload resultIsNil net =
          ([{ method := "POST", url := base ++ endpoint, bearer := tok,
              body := pb }],
           if body.decodesAsResult then none
           else some GraphErr.unmarshalErr)))
    ∧ (net { method := "PATCH", url := base ++ endpoint, bearer := tok,
             body := pb } = HttpAnswer.response status body →
      ((resultIsNil = true ∨ body.raw = "") →
        ClientPatch tok base endpoint payload resultIsNil net =
          ([{ method := "PATCH", url := base ++ endpoint, bearer := tok,
              body := pb }], none))
      ∧ (resultIsNil = false → ¬ body.raw = "" →
        ClientPatch tok base endpoint payload resultIsNil net =
          ([{ method := "PATCH", url := base ++ endpoint, bearer := tok,
              body := pb }],
           if body.decodesAsResult then none
           else some GraphErr.unmarshalErr)))
    ∧ (net { method := "GET", url := base ++ endpoint, bearer := tok,
             body := "" } = HttpAnswer.response status body →
      ((resultIsNil = true ∨ body.raw = "") →
        ClientGet tok base endpoint resultIsNil net =
          ([{ method := "GET", url := base ++ endpoint, bearer := tok,
              body := "" }], some GraphErr.unmarshalErr))
      ∧ (resultIsNil = false → ¬ body.raw = "" →
        ClientGet tok base endpoint resultIsNil net =
          ([{ method := "GET", url := base ++ endpoint, bearer := tok,
              body := "" }],
           if body.decodesAsResult then none
           else some GraphErr.unmarshalErr))) := by
  refine ⟨?_, ?_, ?_⟩
  · intro hnet
    constructor
    · intro h
      simp only [ClientPost, clientSendPayload, henc, hnet]
      rw [if_neg (by omega)]
      rcases h with h | h <;> simp [h]
    · intro h1 h2
      simp only [ClientPost, clientSendPayload, henc, hnet]
      rw [if_neg (by omega), if_neg (by simp [h1, h2])]
      split <;> simp
  · intro hnet
    constructor
    · intro h
      simp only [ClientPatch, clientSendPayload, henc, hnet]
      rw [if_neg (by omega)]
      rcases h with h | h <;> simp [h]
    · intro h1 h2
      simp only [ClientPatch, clientSendPayload, henc, hnet]
      rw [if_neg (by omega), if_neg (by simp [h1, h2])]
      split <;> simp
  · intro hnet
    constructor
    · intro h
      simp only [ClientGet, hnet]
      rw [if_neg (by omega)]
      rcases h with h | h <;> simp [unmarshalOk, h]
    · intro h1 h2
      simp only [ClientGet, hnet]
      rw [if_neg (by omega)]
      simp only [unmarshalOk, h1, if_neg h2]
      by_cases hd : body.decodesAsResult = true <;> simp [hd]

/-- Witness for `c2_amended_decode_guard`: one 200 response with a decodable
non-empty body and a nil target: `Post` succeeds without decoding, `Get`
fails. -/
theorem c2_amended_decode_guard_witness :
    ClientPost "t" BaseURL "/a" none true
        (fun _ => HttpAnswer.response 200
          { raw := "data", asError := none, asToken := none,
            decodesAsResult := true }) =
      ([{ method := "POST", url := BaseURL ++ "/a", bearer := "t",
          body := "" }], none)
    ∧ ClientGet "t" BaseURL "/a" true
        (fun _ => HttpAnswer.response 200
          { raw := "data", asError := none, asToken := none,
            decodesAsResult := true }) =
      ([{ method := "GET", url := BaseURL ++ "/a", bearer := "t",
          body := "" }], some GraphErr.unmarshalErr) := by
  have h := c2_amended_decode_guard "t" BaseURL "/a" "" none true
    (fun _ => HttpAnswer.response 200
      { raw := "data", asError := none, asToken := none,
        decodesAsResult := true }) 200
    { raw := "data", asError := none, asToken := none,
      decodesAsResult := true }
    rfl (by omega) (by omega)
  exact ⟨(h.1 rfl).1 (Or.inl rfl), (h.2.2 rfl).1 (Or.inl rfl)⟩

/-- C3: for every refresh-aware client operation (GET, POST, PATCH, DELETE)
whose pre-flight check succeeds and whose first HTTP attempt returns 401:
with no refresh token configured, the 401 is terminal — no refresh call and
no retry.  With a refresh token configured and the refresh succeeding,
exactly one refresh call and exactly one retry occur, the retry carrying the
newly issued access token; if the retry also returns 401, the call ends in
the terminal retry error (the 401 falls into the generic non-2xx branch)
with no third attempt. -/
theorem c3_401_refresh_and_single_retry (c : ClientState) (endpoint : String)
    (decoded : Except Unit Claims) (now : Int)
    (refreshNet : RefreshCall → HttpAnswer) (net : GraphRequest → HttpAnswer)
    (c1 : ClientState) (rc0 : List RefreshCall)
    (hcheck : checkAndRefreshToken c decoded now refreshNet =
      (c1, rc0, none)) :
    (∀ resultIsNil b1,
      net (mkGraphRequest "GET" c1 endpoint "") = HttpAnswer.response 401 b1 →
      (c1.refreshToken = "" →
        ClientWithRefreshGet c endpoint resultIsNil decoded now refreshNet net
          = (c1, rc0, [mkGraphRequest "GET" c1 endpoint ""],
             some GraphErr.noRefreshTokenOn401))
      ∧ (∀ rcall tr, ¬ c1.refreshToken = "" →
          refreshToken c1.refreshToken c1.tenantID refreshNet =
            ([rcall], Except.ok tr) →
          (mkGraphRequest "GET" (applyTokenResponse c1 tr) endpoint "").bearer
            = tr.accessToken
          ∧ (ClientWithRefreshGet c endpoint resultIsNil decoded now
              refreshNet net).2.1 = rc0 ++ [rcall]
          ∧ (ClientWithRefreshGet c endpoint resultIsNil decoded now
              refreshNet net).2.2.1 =
            [mkGraphRequest "GET" c1 endpoint "",
             mkGraphRequest "GET" (applyTokenResponse c1 tr) endpoint ""]
          ∧ (∀ b2, net (mkGraphRequest "GET" (applyTokenResponse c1 tr)
                endpoint "") = HttpAnswer.response 401 b2 →
              ClientWithRefreshGet c endpoint resultIsNil decoded now
                refreshNet net =
                (applyTokenResponse c1 tr, rc0 ++ [rcall],
                 [mkGraphRequest "GET" c1 endpoint "",
                  mkGraphRequest "GET" (applyTokenResponse c1 tr)
                    endpoint ""],
                 some (retryApiError 401 b2)))))
    ∧ (∀ payload pb resultIsNil b1,
        encodeBody payload = Except.ok pb →
        net (mkGraphRequest "POST" c1 endpoint pb) =
          HttpAnswer.response 401 b1 →
        (c1.refreshToken = "" →
          ClientWithRefreshPost c endpoint payload resultIsNil decoded now
              refreshNet net
            = (c1, rc0, [mkGraphRequest "POST" c1 endpoint pb],
               some GraphErr.noRefreshTokenOn401))
        ∧ (∀ rcall tr, ¬ c1.refreshToken = "" →
            refreshToken c1.refreshToken c1.tenantID refreshNet =
              ([rcall], Except.ok tr) →
            (mkGraphRequest "POST" (applyTokenResponse c1 tr) endpoint
              pb).bearer = tr.accessToken
            ∧ (ClientWithRefreshPost c endpoint payload resultIsNil decoded
                now refreshNet net).2.1 = rc0 ++ [rcall]
            ∧ (ClientWithRefreshPost c endpoint payload resultIsNil decoded
                now refreshNet net).2.2.1 =
              [mkGraphRequest "POST" c1 endpoint pb,
               mkGraphRequest "POST" (applyTokenResponse c1 tr) endpoint pb]
            ∧ (∀ b2, net (mkGraphRequest "POST" (applyTokenResponse c1 tr)
                  endpoint pb) = HttpAnswer.response 401 b2 →
                ClientWithRefreshPost c endpoint payload resultIsNil decoded
                  now refreshNet net =
                  (applyTokenResponse c1 tr, rc0 ++ [rcall],
                   [mkGraphRequest "POST" c1 endpoint pb,
                    mkGraphRequest "POST" (applyTokenResponse c1 tr)
                      endpoint pb],
                   some (retryApiError 401 b2)))))
    ∧ (∀ payload pb resultIsNil b1,
        encodeBody payload = Except.ok pb →
        net (mkGraphRequest "PATCH" c1 endpoint pb) =
          HttpAnswer.response 401 b1 →
        (c1.refreshToken = "" →
          ClientWithRefreshPatch c endpoint payload resultIsNil decoded now
              refreshNet net
            = (c1, rc0, [mkGraphRequest "PATCH" c1 endpoint pb],
               some GraphErr.noRefreshTokenOn401))
        ∧ (∀ rcall tr, ¬ c1.refreshToken = "" →
            refreshToken c1.refreshToken c1.tenantID refreshNet =
              ([rcall], Except.ok tr) →
            (mkGraphRequest "PATCH" (applyTokenResponse c1 tr) endpoint
              pb).bearer = tr.accessToken
            ∧ (ClientWithRefreshPatch c endpoint payload resultIsNil decoded
                now refreshNet net).2.1 = rc0 ++ [rcall]
            ∧ (ClientWithRefreshPatch c endpoint payload resultIsNil decoded
                now refreshNet net).2.2.1 =
              [mkGraphRequest "PATCH" c1 endpoint pb,
               mkGraphRequest "PATCH" (applyTokenResponse c1 tr) endpoint pb]
            ∧ (∀ b2, net (mkGraphRequest "PATCH" (applyTokenResponse c1 tr)
                  endpoint pb) = HttpAnswer.response 401 b2 →
                ClientWithRefreshPatch c endpoint payload resultIsNil decoded
                  now refreshNet net =
                  (applyTokenResponse c1 tr, rc0 ++ [rcall],
                   [mkGraphRequest "PATCH" c1 endpoint pb,
                    mkGraphRequest "PATCH" (applyTokenResponse c1 tr)
                      endpoint pb],
                   some (retryApiError 401 b2)))))
    ∧ (∀ b1,
        net (mkGraphRequest "DELETE" c1 endpoint "") =
          HttpAnswer.response 401 b1 →
        (c1.refreshToken = "" →
          ClientWithRefreshDelete c endpoint decoded now refreshNet net
            = (c1, rc0, [mkGraphRequest "DELETE" c1 endpoint ""],
               some GraphErr.noRefreshTokenOn401))
        ∧ (∀ rcall tr, ¬ c1.refreshToken = "" →
            refreshToken c1.refreshToken c1.tenantID refreshNet =
              ([rcall], Except.ok tr) →
            (mkGraphRequest "DELETE" (applyTokenResponse c1 tr) endpoint
              "").bearer = tr.accessToken
            ∧ (ClientWithRefreshDelete c endpoint decoded now refreshNet
                net).2.1 = rc0 ++ [rcall]
            ∧ (ClientWithRefreshDelete c endpoint decoded now refreshNet
                net).2.2.1 =
              [mkGraphRequest "DELETE" c1 endpoint "",
               mkGraphRequest "DELETE" (applyTokenResponse c1 tr)
                 endpoint ""]
            ∧ (∀ b2, net (mkGraphRequest "DELETE" (applyTokenResponse c1 tr)
                  endpoint "") = HttpAnswer.response 401 b2 →
                ClientWithRefreshDelete c endpoint decoded now refreshNet net
                  =
                  (applyTokenResponse c1 tr, rc0 ++ [rcall],
                   [mkGraphRequest "DELETE" c1 endpoint "",
                    mkGraphRequest "DELETE" (applyTokenResponse c1 tr)
                      endpoint ""],
                   some (retryApiError 401 b2))))) := by
  refine ⟨?_, ?_, ?_, ?_⟩
  · intro resultIsNil b1 hprimary
    have hred := clientWithRefreshGet_401 c endpoint resultIsNil decoded now
      refreshNet net c1 rc0 b1 hcheck hprimary
    constructor
    · intro h
      rw [hred, refreshTokenOn401_noToken c1 endpoint "GET" "" resultIsNil
        refreshNet net h]
      simp
    · intro rcall tr hrt href
      have hcomp := refreshTokenOn401_components c1 endpoint "GET" ""
        resultIsNil refreshNet net [rcall] tr hrt href
      refine ⟨rfl, ?_, ?_, ?_⟩
      · rw [hred]
        dsimp only
        rw [hcomp.2.1]
      · rw [hred]
        dsimp only
        rw [hcomp.2.2]
      · intro b2 hretry
        rw [hred, refreshTokenOn401_retry401 c1 endpoint "GET" "" resultIsNil
          refreshNet net [rcall] tr b2 hrt href hretry]
  · intro payload pb resultIsNil b1 henc hprimary
    have hred := clientWithRefreshSendPayload_401 "POST" c endpoint payload
      pb resultIsNil decoded now refreshNet net c1 rc0 b1 hcheck henc
      hprimary
    constructor
    · intro h
      simp only [ClientWithRefreshPost]
      rw [hred, refreshTokenOn401_noToken c1 endpoint "POST" pb resultIsNil
        refreshNet net h]
      simp
    · intro rcall tr hrt href
      have hcomp := refreshTokenOn401_components c1 endpoint "POST" pb
        resultIsNil refreshNet net [rcall] tr hrt href
      refine ⟨rfl, ?_, ?_, ?_⟩
      · simp only [ClientWithRefreshPost]
        rw [hred]
        dsimp only
        rw [hcomp.2.1]
      · simp only [ClientWithRefreshPost]
        rw [hred]
        dsimp only
        rw [hcomp.2.2]
      · intro b2 hretry
        simp only [ClientWithRefreshPost]
        rw [hred, refreshTokenOn401_retry401 c1 endpoint "POST" pb
          resultIsNil refreshNet net [rcall] tr b2 hrt href hretry]
  · intro payload pb resultIsNil b1 henc hprimary
    have hred := clientWithRefreshSendPayload_401 "PATCH" c endpoint payload
      pb resultIsNil decoded now refreshNet net c1 rc0 b1 hcheck henc
      hprimary
    constructor
    · intro h
      simp only [ClientWithRefreshPatch]
      rw [hred, refreshTokenOn401_noToken c1 endpoint "PATCH" pb resultIsNil
        refreshNet net h]
      simp
    · intro rcall tr hrt href
      have hcomp := refreshTokenOn401_components c1 endpoint "PATCH" pb
        resultIsNil refreshNet net [rcall] tr hrt href
      refine ⟨rfl, ?_, ?_, ?_⟩
      · simp only [ClientWithRefreshPatch]
        rw [hred]
        dsimp only
        rw [hcomp.2.1]
      · simp only [ClientWithRefreshPatch]
        rw [hred]
        dsimp only
        rw [hcomp.2.2]
      · intro b2 hretry
        simp only [ClientWithRefreshPatch]
        rw [hred, refreshTokenOn401_retry401 c1 endpoint "PATCH" pb
          resultIsNil refreshNet net [rcall] tr b2 hrt href hretry]
  · intro b1 hprimary
    have hred := clientWithRefreshDelete_401 c endpoint decoded now
      refreshNet net c1 rc0 b1 hcheck hprimary
    constructor
    · intro h
      rw [hred, refreshTokenOn401_noToken c1 endpoint "DELETE" "" true
        refreshNet net h]
      simp
    · intro rcall tr hrt href
      have hcomp := refreshTokenOn401_components c1 endpoint "DELETE" ""
        true refreshNet net [rcall] tr hrt href
      refine ⟨rfl, ?_, ?_, ?_⟩
      · rw [hred]
        dsimp only
        rw [hcomp.2.1]
      · rw [hred]
        dsimp only
        rw [hcomp.2.2]
      · intro b2 hretry
        rw [hred, refreshTokenOn401_retry401 c1 endpoint "DELETE" "" true
          refreshNet net [rcall] tr b2 hrt href hretry]

/-- Witness for `c3_401_refresh_and_single_retry`: a fresh-looking token, a
network that answers 401 to any request carrying the old token and 401 with
a structured error to one carrying the new token; both the GET and the POST
make one refresh call and two Graph requests (the retry bearing "newacc")
and end in the terminal retry error. -/
theorem c3_401_refresh_and_single_retry_witness :
    (mkGraphRequest "GET"
      (applyTokenResponse
        { accessToken := "tok", baseURL := BaseURL, refreshToken := "rtok",
          tenantID := "t1" }
        { accessToken := "newacc", tokenType := "", expiresIn := 0,
          refreshToken := "newref", scope := "" }) "/me" "").bearer = "newacc"
    ∧ ClientWithRefreshGet
        { accessToken := "tok", baseURL := BaseURL, refreshToken := "rtok",
          tenantID := "t1" } "/me" false
        (Except.ok [("exp", ClaimVal.numFloat 9999)]) 0
        (fun _ => HttpAnswer.response 200
          { raw := "jb", asError := none,
            asToken := some { accessToken := "newacc", tokenType := "",
                              expiresIn := 0, refreshToken := "newref",
                              scope := "" },
            decodesAsResult := false })
        (fun r => if r.bearer = "tok" then
            HttpAnswer.response 401
              { raw := "", asError := none, asToken := none,
                decodesAsResult := false }
          else
            HttpAnswer.response 401
              { raw := "e", asError := some ("c", "m"), asToken := none,
                decodesAsResult := false }) =
      (applyTokenResponse
        { accessToken := "tok", baseURL := BaseURL, refreshToken := "rtok",
          tenantID := "t1" }
        { accessToken := "newacc", tokenType := "", expiresIn := 0,
          refreshToken := "newref", scope := "" },
       [] ++ [refreshCallOf "rtok" "t1"],
       [mkGraphRequest "GET"
          { accessToken := "tok", baseURL := BaseURL, refreshToken := "rtok",
            tenantID := "t1" } "/me" "",
        mkGraphRequest "GET"
          (applyTokenResponse
            { accessToken := "tok", baseURL := BaseURL,
              refreshToken := "rtok", tenantID := "t1" }
            { accessToken := "newacc", tokenType := "", expiresIn := 0,
              refreshToken := "newref", scope := "" }) "/me" ""],
       some (retryApiError 401
         { raw := "e", asError := some ("c", "m"), asToken := none,
           decodesAsResult := false }))
    ∧ ClientWithRefreshPost
        { accessToken := "tok", baseURL := BaseURL, refreshToken := "rtok",
          tenantID := "t1" } "/me" none false
        (Except.ok [("exp", ClaimVal.numFloat 9999)]) 0
        (fun _ => HttpAnswer.response 200
          { raw := "jb", asError := none,
            asToken := some { accessToken := "newacc", tokenType := "",
                              expiresIn := 0, refreshToken := "newref",
                              scope := "" },
            decodesAsResult := false })
        (fun r => if r.bearer = "tok" then
            HttpAnswer.response 401
              { raw := "", asError := none, asToken := none,
                decodesAsResult := false }
          else
            HttpAnswer.response 401
              { raw := "e", asError := some ("c", "m"), asToken := none,
                decodesAsResult := false }) =
      (applyTokenResponse
        { accessToken := "tok", baseURL := BaseURL, refreshToken := "rtok",
          tenantID := "t1" }
        { accessToken := "newacc", tokenType := "", expiresIn := 0,
          refreshToken := "newref", scope := "" },
       [] ++ [refreshCallOf "rtok" "t1"],
       [mkGraphRequest "POST"
          { accessToken := "tok", baseURL := BaseURL, refreshToken := "rtok",
            tenantID := "t1" } "/me" "",
        mkGraphRequest "POST"
          (applyTokenResponse
            { accessToken := "tok", baseURL := BaseURL,
              refreshToken := "rtok", tenantID := "t1" }
            { accessToken := "newacc", tokenType := "", expiresIn := 0,
              refreshToken := "newref", scope := "" }) "/me" ""],
       some (retryApiError 401
         { raw := "e", asError := some ("c", "m"), asToken := none,
           decodesAsResult := false })) := by
  have h := c3_401_refresh_and_single_retry
    { accessToken := "tok", baseURL := BaseURL, refreshToken := "rtok",
      tenantID := "t1" } "/me"
    (Except.ok [("exp", ClaimVal.numFloat 9999)]) 0
    (fun _ => HttpAnswer.response 200
      { raw := "jb", asError := none,
        asToken := some { accessToken := "newacc", tokenType := "",
                          expiresIn := 0, refreshToken := "newref",
                          scope := "" },
        decodesAsResult := false })
    (fun r => if r.bearer = "tok" then
        HttpAnswer.response 401
          { raw := "", asError := none, asToken := none,
            decodesAsResult := false }
      else
        HttpAnswer.response 401
          { raw := "e", asError := some ("c", "m"), asToken := none,
            decodesAsResult := false })
    { accessToken := "tok", baseURL := BaseURL, refreshToken := "rtok",
      tenantID := "t1" } [] rfl
  have hg := (h.1 false
    { raw := "", asError := none, asToken := none, decodesAsResult := false }
    rfl).2 (refreshCallOf "rtok" "t1")
    { accessToken := "newacc", tokenType := "", expiresIn := 0,
      refreshToken := "newref", scope := "" }
    (by decide) rfl
  have hp := (h.2.1 none "" false
    { raw := "", asError := none, asToken := none, decodesAsResult := false }
    rfl rfl).2 (refreshCallOf "rtok" "t1")
    { accessToken := "newacc", tokenType := "", expiresIn := 0,
      refreshToken := "newref", scope := "" }
    (by decide) rfl
  exact ⟨hg.1,
    hg.2.2.2
      { raw := "e", asError := some ("c", "m"), asToken := none,
        decodesAsResult := false } rfl,
    hp.2.2.2
      { raw := "e", asError := some ("c", "m"), asToken := none,
        decodesAsResult := false } rfl⟩

end MsGraph
